import Mathlib

/-!
Verification of the hand-eye calibration core of the
`web-calibraci-n-handeye` repository.

The calibration package (`backend/calibration/`) works on numpy 4x4
homogeneous matrices.  We embed 3-vectors, 3x3 and 4x4 matrices as
explicit record types over a commutative ring (instantiated at `ℚ` for
executable witnesses and at `ℝ` where transcendental functions from
scipy/numpy are involved).  External libraries (numpy, scipy, OpenCV)
are modelled either by their documented mathematics or as explicit
collaborator parameters; all repository code is translated statement by
statement from `src/backend`.
-/

open Real

/-- A 3-vector, `numpy` shape `(3,)`. -/
structure V3 (α : Type) where
  x : α
  y : α
  z : α
  deriving DecidableEq, Repr

/-- A 3x3 matrix with explicit entries, `numpy` shape `(3, 3)`. -/
structure M3 (α : Type) where
  a00 : α
  a01 : α
  a02 : α
  a10 : α
  a11 : α
  a12 : α
  a20 : α
  a21 : α
  a22 : α
  deriving DecidableEq, Repr

/-- A 4x4 matrix with explicit entries, `numpy` shape `(4, 4)`. -/
structure M4 (α : Type) where
  b00 : α
  b01 : α
  b02 : α
  b03 : α
  b10 : α
  b11 : α
  b12 : α
  b13 : α
  b20 : α
  b21 : α
  b22 : α
  b23 : α
  b30 : α
  b31 : α
  b32 : α
  b33 : α
  deriving DecidableEq, Repr

namespace V3

variable {α : Type} [CommRing α]

/-- Componentwise subtraction of 3-vectors (`t1 - t2` in numpy). -/
def sub (u v : V3 α) : V3 α := ⟨u.x - v.x, u.y - v.y, u.z - v.z⟩

/-- Componentwise addition. -/
def add (u v : V3 α) : V3 α := ⟨u.x + v.x, u.y + v.y, u.z + v.z⟩

/-- Negation (`-v`). -/
def neg (v : V3 α) : V3 α := ⟨-v.x, -v.y, -v.z⟩

/-- Squared Euclidean norm `x² + y² + z²`. -/
def normSq (v : V3 α) : α := v.x * v.x + v.y * v.y + v.z * v.z

/-- Zero vector. -/
def zero : V3 α := ⟨0, 0, 0⟩

end V3

namespace M3

variable {α : Type} [CommRing α]

/-- Matrix-matrix product (numpy `@` on 3x3). -/
def mul (A B : M3 α) : M3 α where
  a00 := A.a00 * B.a00 + A.a01 * B.a10 + A.a02 * B.a20
  a01 := A.a00 * B.a01 + A.a01 * B.a11 + A.a02 * B.a21
  a02 := A.a00 * B.a02 + A.a01 * B.a12 + A.a02 * B.a22
  a10 := A.a10 * B.a00 + A.a11 * B.a10 + A.a12 * B.a20
  a11 := A.a10 * B.a01 + A.a11 * B.a11 + A.a12 * B.a21
  a12 := A.a10 * B.a02 + A.a11 * B.a12 + A.a12 * B.a22
  a20 := A.a20 * B.a00 + A.a21 * B.a10 + A.a22 * B.a20
  a21 := A.a20 * B.a01 + A.a21 * B.a11 + A.a22 * B.a21
  a22 := A.a20 * B.a02 + A.a21 * B.a12 + A.a22 * B.a22

/-- Matrix-vector product (numpy `@` of a 3x3 with a 3-vector). -/
def mulVec (A : M3 α) (v : V3 α) : V3 α where
  x := A.a00 * v.x + A.a01 * v.y + A.a02 * v.z
  y := A.a10 * v.x + A.a11 * v.y + A.a12 * v.z
  z := A.a20 * v.x + A.a21 * v.y + A.a22 * v.z

/-- Transpose (`R.T` in numpy). -/
def transpose (A : M3 α) : M3 α :=
  ⟨A.a00, A.a10, A.a20, A.a01, A.a11, A.a21, A.a02, A.a12, A.a22⟩

/-- The 3x3 identity matrix (`np.eye(3)`). -/
def one : M3 α := ⟨1, 0, 0, 0, 1, 0, 0, 0, 1⟩

/-- Determinant of a 3x3 matrix. -/
def det (A : M3 α) : α :=
  A.a00 * (A.a11 * A.a22 - A.a12 * A.a21)
    - A.a01 * (A.a10 * A.a22 - A.a12 * A.a20)
    + A.a02 * (A.a10 * A.a21 - A.a11 * A.a20)

/-- Trace. -/
def trace (A : M3 α) : α := A.a00 + A.a11 + A.a22

end M3

namespace M4

variable {α : Type} [CommRing α]

/-- Matrix product of 4x4 matrices (numpy `@`). -/
def mul (A B : M4 α) : M4 α where
  b00 := A.b00 * B.b00 + A.b01 * B.b10 + A.b02 * B.b20 + A.b03 * B.b30
  b01 := A.b00 * B.b01 + A.b01 * B.b11 + A.b02 * B.b21 + A.b03 * B.b31
  b02 := A.b00 * B.b02 + A.b01 * B.b12 + A.b02 * B.b22 + A.b03 * B.b32
  b03 := A.b00 * B.b03 + A.b01 * B.b13 + A.b02 * B.b23 + A.b03 * B.b33
  b10 := A.b10 * B.b00 + A.b11 * B.b10 + A.b12 * B.b20 + A.b13 * B.b30
  b11 := A.b10 * B.b01 + A.b11 * B.b11 + A.b12 * B.b21 + A.b13 * B.b31
  b12 := A.b10 * B.b02 + A.b11 * B.b12 + A.b12 * B.b22 + A.b13 * B.b32
  b13 := A.b10 * B.b03 + A.b11 * B.b13 + A.b12 * B.b23 + A.b13 * B.b33
  b20 := A.b20 * B.b00 + A.b21 * B.b10 + A.b22 * B.b20 + A.b23 * B.b30
  b21 := A.b20 * B.b01 + A.b21 * B.b11 + A.b22 * B.b21 + A.b23 * B.b31
  b22 := A.b20 * B.b02 + A.b21 * B.b12 + A.b22 * B.b22 + A.b23 * B.b32
  b23 := A.b20 * B.b03 + A.b21 * B.b13 + A.b22 * B.b23 + A.b23 * B.b33
  b30 := A.b30 * B.b00 + A.b31 * B.b10 + A.b32 * B.b20 + A.b33 * B.b30
  b31 := A.b30 * B.b01 + A.b31 * B.b11 + A.b32 * B.b21 + A.b33 * B.b31
  b32 := A.b30 * B.b02 + A.b31 * B.b12 + A.b32 * B.b22 + A.b33 * B.b32
  b33 := A.b30 * B.b03 + A.b31 * B.b13 + A.b32 * B.b23 + A.b33 * B.b33

/-- The 4x4 identity matrix (`np.eye(4)`). -/
def one : M4 α := ⟨1, 0, 0, 0, 0, 1, 0, 0, 0, 0, 1, 0, 0, 0, 0, 1⟩

/-- Subtraction of 4x4 matrices (`A - B`). -/
def sub (A B : M4 α) : M4 α :=
  ⟨A.b00 - B.b00, A.b01 - B.b01, A.b02 - B.b02, A.b03 - B.b03,
   A.b10 - B.b10, A.b11 - B.b11, A.b12 - B.b12, A.b13 - B.b13,
   A.b20 - B.b20, A.b21 - B.b21, A.b22 - B.b22, A.b23 - B.b23,
   A.b30 - B.b30, A.b31 - B.b31, A.b32 - B.b32, A.b33 - B.b33⟩

/-- Sum of the squares of all sixteen entries: the square of the
Frobenius norm. -/
def frobSq (A : M4 α) : α :=
  A.b00 ^ 2 + A.b01 ^ 2 + A.b02 ^ 2 + A.b03 ^ 2 +
  A.b10 ^ 2 + A.b11 ^ 2 + A.b12 ^ 2 + A.b13 ^ 2 +
  A.b20 ^ 2 + A.b21 ^ 2 + A.b22 ^ 2 + A.b23 ^ 2 +
  A.b30 ^ 2 + A.b31 ^ 2 + A.b32 ^ 2 + A.b33 ^ 2

end M4

/-! ## `backend/calibration/transformations.py`: block access and rigid inverse -/

/-- `matrix_to_rotation_translation(T)`: the slices `T[:3, :3]` and
`T[:3, 3]` of a 4x4 homogeneous matrix. -/
def matrix_to_rotation_translation {α : Type} [CommRing α] (T : M4 α) : M3 α × V3 α :=
  (⟨T.b00, T.b01, T.b02, T.b10, T.b11, T.b12, T.b20, T.b21, T.b22⟩,
   ⟨T.b03, T.b13, T.b23⟩)

/-- `create_homogeneous_matrix(rotation, translation)`: starts from
`np.eye(4)` and overwrites `T[:3, :3]` and `T[:3, 3]`, so the bottom row
stays `(0,0,0,1)`. -/
def create_homogeneous_matrix {α : Type} [CommRing α] (R : M3 α) (t : V3 α) : M4 α :=
  ⟨R.a00, R.a01, R.a02, t.x,
   R.a10, R.a11, R.a12, t.y,
   R.a20, R.a21, R.a22, t.z,
   0, 0, 0, 1⟩

/-- `invert_homogeneous_matrix(T)`: builds `np.eye(4)`, extracts `(R, t)`
via `matrix_to_rotation_translation`, and writes the blocks `R' = R.T`
and `t' = -R' @ t`. -/
def invert_homogeneous_matrix {α : Type} [CommRing α] (T : M4 α) : M4 α :=
  let Rt := matrix_to_rotation_translation T
  let R_inv := M3.transpose Rt.1
  let t_inv := V3.neg (M3.mulVec R_inv Rt.2)
  create_homogeneous_matrix R_inv t_inv

/-- A 4x4 matrix is a valid rigid transform when its bottom row is
`(0,0,0,1)` and its rotation block is proper orthogonal. -/
def IsRigid {α : Type} [CommRing α] (T : M4 α) : Prop :=
  T.b30 = 0 ∧ T.b31 = 0 ∧ T.b32 = 0 ∧ T.b33 = 1 ∧
  M3.mul (M3.transpose (matrix_to_rotation_translation T).1)
    (matrix_to_rotation_translation T).1 = M3.one ∧
  M3.det (matrix_to_rotation_translation T).1 = 1

/-- **C6**: for every valid rigid 4x4 homogeneous transform `T` (bottom row
`(0,0,0,1)`, proper orthogonal rotation block), the closed-form rigid
inverse `R' = Rᵀ, t' = -Rᵀt` of `invert_homogeneous_matrix` satisfies
`invert_homogeneous_matrix T * T = I₄` exactly. -/
theorem C6_invert_rigid_left_inverse {α : Type} [CommRing α] (T : M4 α)
    (h : IsRigid T) : M4.mul (invert_homogeneous_matrix T) T = M4.one := by
  obtain ⟨h30, h31, h32, h33, horth, -⟩ := h
  have e00 := congrArg M3.a00 horth
  have e01 := congrArg M3.a01 horth
  have e02 := congrArg M3.a02 horth
  have e10 := congrArg M3.a10 horth
  have e11 := congrArg M3.a11 horth
  have e12 := congrArg M3.a12 horth
  have e20 := congrArg M3.a20 horth
  have e21 := congrArg M3.a21 horth
  have e22 := congrArg M3.a22 horth
  simp only [M3.mul, M3.transpose, M3.one, matrix_to_rotation_translation]
    at e00 e01 e02 e10 e11 e12 e20 e21 e22
  simp only [M4.mul, M4.one, invert_homogeneous_matrix, create_homogeneous_matrix,
    matrix_to_rotation_translation, M3.transpose, M3.mulVec, V3.neg,
    h30, h31, h32, h33, M4.mk.injEq]
  refine ⟨?_, ?_, ?_, ?_, ?_, ?_, ?_, ?_, ?_, ?_, ?_, ?_, ?_, ?_, ?_, ?_⟩ <;>
    first
      | linear_combination e00
      | linear_combination e01
      | linear_combination e02
      | linear_combination e10
      | linear_combination e11
      | linear_combination e12
      | linear_combination e20
      | linear_combination e21
      | linear_combination e22
      | ring1

/-- A concrete rigid transform: 90° rotation about z with translation
`(1,2,3)`, used to witness `C6_invert_rigid_left_inverse`. -/
def rigidExampleT : M4 ℚ :=
  ⟨0, -1, 0, 1,
   1, 0, 0, 2,
   0, 0, 1, 3,
   0, 0, 0, 1⟩

/-- Witness for **C6** at a concrete rigid transform. -/
theorem C6_invert_rigid_left_inverse_witness :
    IsRigid rigidExampleT ∧
      M4.mul (invert_homogeneous_matrix rigidExampleT) rigidExampleT = M4.one := by
  have h : IsRigid rigidExampleT := by
    refine ⟨rfl, rfl, rfl, rfl, ?_, ?_⟩ <;>
      norm_num [matrix_to_rotation_translation, M3.transpose, M3.mul, M3.one,
        M3.det, rigidExampleT, M3.mk.injEq]
  exact ⟨h, C6_invert_rigid_left_inverse rigidExampleT h⟩

/-! ## `backend/calibration/transformations.py`: Euler conversions

`euler_to_rotation_matrix` and `rotation_matrix_to_euler` are one-line
calls into scipy (`Rotation.from_euler('xyz', [rx, ry, rz])` and
`Rotation.as_euler('xyz')`).  scipy is an external collaborator; we model
it by its documented mathematics: lowercase `'xyz'` is the extrinsic
sequence rotate-about-x, then y, then z, i.e. `R = Rz(rz)·Ry(ry)·Rx(rx)`,
and `as_euler('xyz')` recovers `rx = atan2(R21, R22)`,
`ry = arcsin(-R20)`, `rz = atan2(R10, R00)` away from gimbal lock. -/

/-- Elementary rotation about the x axis. -/
noncomputable def rotX (θ : ℝ) : M3 ℝ :=
  ⟨1, 0, 0,
   0, Real.cos θ, -Real.sin θ,
   0, Real.sin θ, Real.cos θ⟩

/-- Elementary rotation about the y axis. -/
noncomputable def rotY (θ : ℝ) : M3 ℝ :=
  ⟨Real.cos θ, 0, Real.sin θ,
   0, 1, 0,
   -Real.sin θ, 0, Real.cos θ⟩

/-- Elementary rotation about the z axis. -/
noncomputable def rotZ (θ : ℝ) : M3 ℝ :=
  ⟨Real.cos θ, -Real.sin θ, 0,
   Real.sin θ, Real.cos θ, 0,
   0, 0, 1⟩

/-- scipy `Rotation.from_euler('xyz', [rx, ry, rz])` (radians): the
extrinsic x-y-z composition `Rz(rz)·Ry(ry)·Rx(rx)`. -/
noncomputable def scipy_from_euler_xyz (rx ry rz : ℝ) : M3 ℝ :=
  M3.mul (rotZ rz) (M3.mul (rotY ry) (rotX rx))

/-- Two-argument arctangent, modelled as the complex argument of
`x + y·i`; range `(-π, π]`. -/
noncomputable def atan2 (y x : ℝ) : ℝ :=
  Complex.arg (Complex.ofReal x + Complex.ofReal y * Complex.I)

/-- scipy `Rotation.as_euler('xyz')` (radians): the inverse extraction
for the extrinsic x-y-z convention. -/
noncomputable def scipy_as_euler_xyz (M : M3 ℝ) : ℝ × ℝ × ℝ :=
  (atan2 M.a21 M.a22, Real.arcsin (-M.a20), atan2 M.a10 M.a00)

/-- `euler_to_rotation_matrix(rx, ry, rz, degrees)`: converts to radians
when `degrees` is set and calls scipy `from_euler('xyz', ...)`. -/
noncomputable def euler_to_rotation_matrix (rx ry rz : ℝ) (degrees : Bool) : M3 ℝ :=
  scipy_from_euler_xyz
    (if degrees then rx * π / 180 else rx)
    (if degrees then ry * π / 180 else ry)
    (if degrees then rz * π / 180 else rz)

/-- `rotation_matrix_to_euler(R, degrees)`: scipy `as_euler('xyz')`,
converted back to degrees when requested. -/
noncomputable def rotation_matrix_to_euler (M : M3 ℝ) (degrees : Bool) : ℝ × ℝ × ℝ :=
  let e := scipy_as_euler_xyz M
  (if degrees then e.1 * 180 / π else e.1,
   if degrees then e.2.1 * 180 / π else e.2.1,
   if degrees then e.2.2 * 180 / π else e.2.2)

/-- `atan2` recovers the angle of a positively scaled unit vector. -/
theorem atan2_mul_sin_cos {r θ : ℝ} (hr : 0 < r) (hθ : θ ∈ Set.Ioc (-π) π) :
    atan2 (r * Real.sin θ) (r * Real.cos θ) = θ := by
  unfold atan2
  have h : (Complex.ofReal (r * Real.cos θ) + Complex.ofReal (r * Real.sin θ) * Complex.I)
      = (r : ℂ) * (Complex.cos θ + Complex.sin θ * Complex.I) := by
    push_cast
    ring
  rw [h]
  exact Complex.arg_mul_cos_add_sin_mul_I hr hθ

/-- Radian-level round trip for the scipy `'xyz'` convention away from
gimbal lock. -/
theorem scipy_euler_round_trip {θx θy θz : ℝ}
    (hx : θx ∈ Set.Ioc (-π) π) (hy : θy ∈ Set.Ioo (-(π / 2)) (π / 2))
    (hz : θz ∈ Set.Ioc (-π) π) :
    scipy_as_euler_xyz (scipy_from_euler_xyz θx θy θz) = (θx, θy, θz) := by
  have hcy : 0 < Real.cos θy := Real.cos_pos_of_mem_Ioo hy
  simp only [scipy_from_euler_xyz, rotX, rotY, rotZ, M3.mul, scipy_as_euler_xyz,
    Prod.mk.injEq]
  refine ⟨?_, ?_, ?_⟩
  · calc
      _ = atan2 (Real.cos θy * Real.sin θx) (Real.cos θy * Real.cos θx) := by
            congr 1 <;> ring
      _ = θx := atan2_mul_sin_cos hcy hx
  · calc
      _ = Real.arcsin (Real.sin θy) := by congr 1; ring
      _ = θy := Real.arcsin_sin hy.1.le hy.2.le
  · calc
      _ = atan2 (Real.cos θy * Real.sin θz) (Real.cos θy * Real.cos θz) := by
            congr 1 <;> ring
      _ = θz := atan2_mul_sin_cos hcy hz

/-- **C7**: for every Euler triple away from gimbal lock (middle-axis
rotation strictly inside ±90°) and within the principal range, converting
to a rotation matrix and back with the fixed `'xyz'` convention reproduces
the original angles exactly (hence within 1e-6). -/
theorem C7_euler_round_trip (rx ry rz : ℝ)
    (hx1 : -180 < rx) (hx2 : rx ≤ 180)
    (hy1 : -90 < ry) (hy2 : ry < 90)
    (hz1 : -180 < rz) (hz2 : rz ≤ 180) :
    rotation_matrix_to_euler (euler_to_rotation_matrix rx ry rz true) true
      = (rx, ry, rz) := by
  have hπ : (0 : ℝ) < π := Real.pi_pos
  have hx : rx * π / 180 ∈ Set.Ioc (-π) π := by
    constructor <;> nlinarith
  have hy : ry * π / 180 ∈ Set.Ioo (-(π / 2)) (π / 2) := by
    constructor <;> nlinarith
  have hz : rz * π / 180 ∈ Set.Ioc (-π) π := by
    constructor <;> nlinarith
  have h := scipy_euler_round_trip hx hy hz
  simp only [euler_to_rotation_matrix, rotation_matrix_to_euler, if_pos] at h ⊢
  rw [h]
  have hπ' : π ≠ 0 := ne_of_gt hπ
  refine Prod.ext ?_ (Prod.ext ?_ ?_) <;>
    · simp only []
      field_simp
      try ring

/-- Witness for **C7** at the concrete triple `(30, 45, 60)` degrees. -/
theorem C7_euler_round_trip_witness :
    rotation_matrix_to_euler (euler_to_rotation_matrix 30 45 60 true) true
      = (30, 45, 60) :=
  C7_euler_round_trip 30 45 60 (by norm_num) (by norm_num) (by norm_num)
    (by norm_num) (by norm_num) (by norm_num)

/-! ## `backend/calibration/tsai_lenz.py`: `validate_pose_pairs`

The validator inspects numpy float64 entries for NaN/Inf, so its scalar
type is a model of a float: a finite rational, NaN, `+inf` or `-inf`. -/

/-- Model of an IEEE double as the validator observes it. -/
inductive FV where
  | fin (q : ℚ)
  | nan
  | pinf
  | ninf
  deriving DecidableEq, Repr

/-- `np.isnan` on one entry. -/
def FV.isnan : FV → Bool
  | .nan => true
  | _ => false

/-- `np.isinf` on one entry (true for both infinities). -/
def FV.isinf : FV → Bool
  | .pinf => true
  | .ninf => true
  | _ => false

/-- `np.isclose(a, b, rtol=1e-5, atol=1e-6)` on one entry: for finite
values `|a-b| <= atol + rtol*|b|`; equal infinities are close; NaN is
close to nothing. -/
def FV.isclose (a b : FV) : Bool :=
  match a, b with
  | .fin x, .fin y => decide (|x - y| ≤ 1 / 1000000 + 1 / 100000 * |y|)
  | .pinf, .pinf => true
  | .ninf, .ninf => true
  | _, _ => false

/-- The sixteen entries of a 4x4 matrix, row-major. -/
def M4.entries {α : Type} (A : M4 α) : List α :=
  [A.b00, A.b01, A.b02, A.b03,
   A.b10, A.b11, A.b12, A.b13,
   A.b20, A.b21, A.b22, A.b23,
   A.b30, A.b31, A.b32, A.b33]

/-- The numpy observations the validator makes of a scalar: NaN-ness,
Inf-ness and elementwise closeness.  Instantiated at `FV` (the full float
model) and at `ℚ` (finite floats only, as the orchestrator produces). -/
class FloatLike (α : Type) where
  isnan : α → Bool
  isinf : α → Bool
  isclose : α → α → Bool

instance : FloatLike FV := ⟨FV.isnan, FV.isinf, FV.isclose⟩

/-- Finite rationals are never NaN or Inf; closeness is the numpy
formula. -/
instance : FloatLike ℚ :=
  ⟨fun _ => false, fun _ => false,
   fun a b => decide (|a - b| ≤ 1 / 1000000 + 1 / 100000 * |b|)⟩

/-- `np.any(np.isnan(pose)) or np.any(np.isinf(pose))` on a 4x4 pose. -/
def hasNanInf {α : Type} [FloatLike α] (A : M4 α) : Bool :=
  A.entries.any FloatLike.isnan || A.entries.any FloatLike.isinf

/-- `np.allclose(A, B, atol=1e-6)` on 4x4 poses: all entries close. -/
def allcloseM4 {α : Type} [FloatLike α] (A B : M4 α) : Bool :=
  (A.entries.zip B.entries).all fun p => FloatLike.isclose p.1 p.2

/-- The error and warning messages `validate_pose_pairs` appends, with the
interpolated indices/counts carried structurally. -/
inductive VMsg where
  | countMismatch (nRobot nCam : Nat)
  | insufficientPoses (need got : Nat)
  | robotNanInf (i : Nat)
  | camNanInf (i : Nat)
  | duplicateRobot (i j : Nat)
  | fewPoses (n : Nat)
  deriving DecidableEq, Repr

/-- The dictionary `validate_pose_pairs` returns. -/
structure VResult where
  valid : Bool
  num_poses : Nat
  errors : List VMsg
  warnings : List VMsg
  deriving DecidableEq, Repr

/-- The `for i, pose in enumerate(poses)` NaN/Inf loop: appends `mk i`
for every pose with a NaN or Inf entry. -/
def nanInfErrors {α : Type} [FloatLike α] (mk : Nat → VMsg) :
    Nat → List (M4 α) → List VMsg
  | _, [] => []
  | i, p :: rest =>
      (if hasNanInf p then [mk i] else []) ++ nanInfErrors mk (i + 1) rest

/-- The nested duplicate-pose loop: for each `i`, the first `j > i` with
`np.allclose(poses[i], poses[j])` produces one warning (the inner loop
breaks after the first hit). -/
def dupWarnings {α : Type} [FloatLike α] : Nat → List (M4 α) → List VMsg
  | _, [] => []
  | i, p :: rest =>
      (match rest.findIdx? (fun q => allcloseM4 p q) with
       | some k => [VMsg.duplicateRobot i (i + 1 + k)]
       | none => []) ++ dupWarnings (i + 1) rest

/-- `validate_pose_pairs(robot_poses, camera_poses, min_poses=3)`. -/
def validate_pose_pairs {α : Type} [FloatLike α]
    (robot_poses camera_poses : List (M4 α)) (min_poses : Nat := 3) : VResult :=
  let errors1 :=
    if robot_poses.length ≠ camera_poses.length then
      [VMsg.countMismatch robot_poses.length camera_poses.length]
    else []
  let num_poses := min robot_poses.length camera_poses.length
  let errors2 := errors1 ++
    (if num_poses < min_poses then [VMsg.insufficientPoses min_poses num_poses]
     else [])
  let errors3 := errors2 ++ nanInfErrors VMsg.robotNanInf 0 robot_poses
  let errors4 := errors3 ++ nanInfErrors VMsg.camNanInf 0 camera_poses
  let warnings1 := dupWarnings 0 robot_poses
  let warnings2 := warnings1 ++
    (if 3 ≤ num_poses ∧ num_poses < 8 then [VMsg.fewPoses num_poses] else [])
  { valid := errors4.isEmpty
    num_poses := num_poses
    errors := errors4
    warnings := warnings2 }

/-- Indexed membership in the NaN/Inf error loop. -/
theorem nanInfErrors_mem {α : Type} [FloatLike α] (mk : Nat → VMsg) :
    ∀ (l : List (M4 α)) (i0 i : Nat) (p : M4 α),
      l.get? i = some p → hasNanInf p = true →
      mk (i0 + i) ∈ nanInfErrors mk i0 l := by
  intro l
  induction l with
  | nil => intro i0 i p h _; simp at h
  | cons q rest ih =>
      intro i0 i p h hp
      cases i with
      | zero =>
          simp only [List.get?] at h
          cases h
          simp [nanInfErrors, hp]
      | succ n =>
          simp only [List.get?] at h
          have := ih (i0 + 1) n p h hp
          simp only [nanInfErrors, List.mem_append]
          right
          simpa [Nat.add_assoc, Nat.add_comm, Nat.add_left_comm] using this

/-- **C4**: the validator reports a count-mismatch error whenever the list
lengths differ, an insufficient-poses error whenever the usable count is
below 3, and a degenerate-pose error for every pose containing NaN or Inf;
`valid` is true exactly when the errors list is empty, so warnings alone
never invalidate the result. -/
theorem C4_validator_errors (robot cam : List (M4 FV)) :
    (robot.length ≠ cam.length →
      VMsg.countMismatch robot.length cam.length
        ∈ (validate_pose_pairs robot cam 3).errors)
    ∧ (min robot.length cam.length < 3 →
      VMsg.insufficientPoses 3 (min robot.length cam.length)
        ∈ (validate_pose_pairs robot cam 3).errors)
    ∧ (∀ i p, robot.get? i = some p → hasNanInf p = true →
      VMsg.robotNanInf i ∈ (validate_pose_pairs robot cam 3).errors)
    ∧ (∀ i p, cam.get? i = some p → hasNanInf p = true →
      VMsg.camNanInf i ∈ (validate_pose_pairs robot cam 3).errors)
    ∧ ((validate_pose_pairs robot cam 3).valid = true ↔
      (validate_pose_pairs robot cam 3).errors = []) := by
  refine ⟨?_, ?_, ?_, ?_, ?_⟩
  · intro h
    simp [validate_pose_pairs, h]
  · intro h
    simp [validate_pose_pairs, h]
  · intro i p hget hp
    have hm := nanInfErrors_mem VMsg.robotNanInf robot 0 i p hget hp
    simp only [Nat.zero_add] at hm
    simp [validate_pose_pairs, hm]
  · intro i p hget hp
    have hm := nanInfErrors_mem VMsg.camNanInf cam 0 i p hget hp
    simp only [Nat.zero_add] at hm
    simp [validate_pose_pairs, hm]
  · exact List.isEmpty_iff

/-- The float-model 4x4 identity pose. -/
def fvEye4 : M4 FV :=
  ⟨.fin 1, .fin 0, .fin 0, .fin 0,
   .fin 0, .fin 1, .fin 0, .fin 0,
   .fin 0, .fin 0, .fin 1, .fin 0,
   .fin 0, .fin 0, .fin 0, .fin 1⟩

/-- The identity pose with a NaN translation entry. -/
def fvNanPose : M4 FV := { fvEye4 with b03 := FV.nan }

/-- Witness for **C4** on lists of length 2 vs 3 with a NaN pose. -/
theorem C4_validator_errors_witness :
    VMsg.countMismatch 2 3
      ∈ (validate_pose_pairs [fvNanPose, fvEye4] [fvEye4, fvEye4, fvEye4] 3).errors
    ∧ VMsg.insufficientPoses 3 2
      ∈ (validate_pose_pairs [fvNanPose, fvEye4] [fvEye4, fvEye4, fvEye4] 3).errors
    ∧ VMsg.robotNanInf 0
      ∈ (validate_pose_pairs [fvNanPose, fvEye4] [fvEye4, fvEye4, fvEye4] 3).errors := by
  have h := C4_validator_errors [fvNanPose, fvEye4] [fvEye4, fvEye4, fvEye4]
  exact ⟨h.1 (by decide), h.2.1 (by decide),
    h.2.2.1 0 fvNanPose rfl (by decide)⟩

/-- State-passing form of `validate_pose_pairs`: the two input lists are
the state, and every access the Python body makes (`len`, the NaN/Inf
scan, the duplicate scan) is a read; the body contains no assignment to
its inputs. -/
def validate_pose_pairs_st {α : Type} [FloatLike α] (min_poses : Nat) :
    StateM (List (M4 α) × List (M4 α)) VResult := do
  let s1 ← get
  let robotLen := s1.1.length
  let s2 ← get
  let camLen := s2.2.length
  let errors1 :=
    if robotLen ≠ camLen then [VMsg.countMismatch robotLen camLen] else []
  let num_poses := min robotLen camLen
  let errors2 := errors1 ++
    (if num_poses < min_poses then [VMsg.insufficientPoses min_poses num_poses]
     else [])
  let s3 ← get
  let errors3 := errors2 ++ nanInfErrors VMsg.robotNanInf 0 s3.1
  let s4 ← get
  let errors4 := errors3 ++ nanInfErrors VMsg.camNanInf 0 s4.2
  let s5 ← get
  let warnings1 := dupWarnings 0 s5.1
  let warnings2 := warnings1 ++
    (if 3 ≤ num_poses ∧ num_poses < 8 then [VMsg.fewPoses num_poses] else [])
  pure { valid := errors4.isEmpty
         num_poses := num_poses
         errors := errors4
         warnings := warnings2 }

/-- **C9**: running the validator leaves its two input lists (the state)
unchanged, and its result is the pure function of the inputs — validation
reads but never mutates. -/
theorem C9_validator_frame {α : Type} [FloatLike α] (min_poses : Nat)
    (s : List (M4 α) × List (M4 α)) :
    (validate_pose_pairs_st min_poses).run s
      = (validate_pose_pairs s.1 s.2 min_poses, s) := rfl

/-! ## `backend/calibration/tsai_lenz.py`: `solve_hand_eye_opencv`

The wrapper extracts `(R, t)` from every pose, hands the four lists to
`cv2.calibrateHandEye` — an external library, modelled as an explicit
collaborator function that may raise — and packs whatever comes back into
a result dictionary.  The body contains no degeneracy check and no error
path of its own. -/

/-- The type of the external `cv2.calibrateHandEye` collaborator: four
lists of rotations/translations in, `(R_cam2gripper, t_cam2gripper)` out,
or a raised exception. -/
def Cv2HandEye (α : Type) : Type :=
  List (M3 α) → List (V3 α) → List (M3 α) → List (V3 α) →
    Except String (M3 α × V3 α)

/-- The dictionary returned by `solve_hand_eye_opencv`. -/
structure SolveResult (α : Type) where
  X : M4 α
  R_cam2gripper : M3 α
  t_cam2gripper : V3 α
  num_poses_used : Nat
  method_name : String
  deriving Repr

/-- The `method_names` lookup; cv2's constants are
`CALIB_HAND_EYE_TSAI = 0, PARK = 1, HORAUD = 2, ANDREFF = 3,
DANIILIDIS = 4`. -/
def method_names (method : Nat) : String :=
  match method with
  | 0 => "Tsai-Lenz"
  | 1 => "Park-Martin"
  | 2 => "Horaud"
  | 3 => "Andreff"
  | 4 => "Daniilidis"
  | _ => "Unknown"

/-- `solve_hand_eye_opencv(robot_poses, camera_poses, method)`: no input
check of any kind; the only failure mode is an exception raised inside
the external `cv2.calibrateHandEye` call itself. -/
def solve_hand_eye_opencv {α : Type} [CommRing α] (calibrateHandEye : Cv2HandEye α)
    (robot_poses camera_poses : List (M4 α)) (method : Nat := 0) :
    Except String (SolveResult α) := do
  let R_gripper2base := robot_poses.map fun A => (matrix_to_rotation_translation A).1
  let t_gripper2base := robot_poses.map fun A => (matrix_to_rotation_translation A).2
  let R_target2cam := camera_poses.map fun B => (matrix_to_rotation_translation B).1
  let t_target2cam := camera_poses.map fun B => (matrix_to_rotation_translation B).2
  let rt ← calibrateHandEye R_gripper2base t_gripper2base R_target2cam t_target2cam
  let X := create_homogeneous_matrix rt.1 rt.2
  pure { X := X
         R_cam2gripper := rt.1
         t_cam2gripper := rt.2
         num_poses_used := robot_poses.length
         method_name := method_names method }

/-- `solve_hand_eye_tsai_lenz`: the convenience wrapper fixing
`method = cv2.CALIB_HAND_EYE_TSAI`. -/
def solve_hand_eye_tsai_lenz {α : Type} [CommRing α] (calibrateHandEye : Cv2HandEye α)
    (robot_poses camera_poses : List (M4 α)) : Except String (SolveResult α) :=
  solve_hand_eye_opencv calibrateHandEye robot_poses camera_poses 0

/-- **C2** fails on the code: on the degenerate input of three identical
robot poses the solver does not fail with any `SolveDegenerate` error — no
such check exists in the body — but returns `.ok` with `X` assembled
verbatim from whatever the external cv2 call returns (for this input,
cv2's SVD least squares on an all-zero system yields the identity, i.e. a
silent identity fallback).  Stated for every pose `P` and every value
`(Rv, tv)` the external call could return. -/
theorem C2_solver_returns_ok_on_identical_poses {α : Type} [CommRing α]
    (P : M4 α) (Rv : M3 α) (tv : V3 α) :
    solve_hand_eye_tsai_lenz (fun _ _ _ _ => Except.ok (Rv, tv)) [P, P, P] [P, P, P]
      = Except.ok
          { X := create_homogeneous_matrix Rv tv
            R_cam2gripper := Rv
            t_cam2gripper := tv
            num_poses_used := 3
            method_name := "Tsai-Lenz" } := rfl

/-! ## `backend/calibration/error_metrics.py`

The module's scalars are numpy floats; the transcendental primitives it
calls — `scipy.Rotation.magnitude`, `np.pi`, the square root inside
`np.linalg.norm`/`np.std` — are external collaborators, collected in a
`NumEnv`.  Everything else is translated directly. -/

/-- The external numeric collaborators of `error_metrics.py`. -/
structure NumEnv (α : Type) where
  magnitude : M3 α → α
  pi : α
  sqrt : α → α

/-- `np.mean` of a list. -/
def listMean {α : Type} [Field α] (l : List α) : α :=
  l.sum / (l.length : α)

/-- `np.max` of a (nonempty) list. -/
def listMax {α : Type} [LinearOrder α] [Zero α] : List α → α
  | [] => 0
  | x :: xs => xs.foldl max x

/-- `np.min` of a (nonempty) list. -/
def listMin {α : Type} [LinearOrder α] [Zero α] : List α → α
  | [] => 0
  | x :: xs => xs.foldl min x

/-- `np.std`: `sqrt(mean((x - mean)²))`. -/
def npStd {α : Type} [Field α] (E : NumEnv α) (l : List α) : α :=
  E.sqrt (listMean (l.map fun x => (x - listMean l) ^ 2))

/-- `calculate_rotation_error(R1, R2)`: the scipy angle of the relative
rotation `R1ᵀ·R2`, converted to degrees. -/
def calculate_rotation_error {α : Type} [Field α] (E : NumEnv α) (R1 R2 : M3 α) : α :=
  E.magnitude (M3.mul (M3.transpose R1) R2) * 180 / E.pi

/-- `calculate_translation_error(t1, t2)`: `np.linalg.norm(t1 - t2)`. -/
def calculate_translation_error {α : Type} [Field α] (E : NumEnv α) (t1 t2 : V3 α) : α :=
  E.sqrt (V3.normSq (V3.sub t1 t2))

/-- The dictionary `calculate_reprojection_error` returns. -/
structure ErrReport (α : Type) where
  mean_error : α
  std_error : α
  max_error : α
  min_error : α
  individual_errors : List α
  rotation_errors_deg : List α
  translation_errors_mm : List α
  mean_rotation_error_deg : α
  mean_translation_error_mm : α
  deriving Repr

/-- `calculate_reprojection_error(X, robot_poses, camera_poses)`: builds
`T_i = A_i @ X @ B_i` per pair, then measures each pose's *deviation from
the first/mean combined pose* — rotation against `T_0`'s rotation,
translation against the mean translation — and aggregates those; the
unconditional `T_target_base_list[0]` raises `IndexError` on empty
input. -/
def calculate_reprojection_error {α : Type} [LinearOrderedField α] (E : NumEnv α)
    (X : M4 α) (robot_poses camera_poses : List (M4 α)) :
    Except String (ErrReport α) :=
  let T_target_base_list :=
    (robot_poses.zip camera_poses).map fun AB => M4.mul AB.1 (M4.mul X AB.2)
  let translations := T_target_base_list.map fun T => (matrix_to_rotation_translation T).2
  let mean_translation : V3 α :=
    ⟨listMean (translations.map V3.x), listMean (translations.map V3.y),
     listMean (translations.map V3.z)⟩
  match T_target_base_list with
  | [] => Except.error "list index out of range"
  | ref_T :: _ =>
    let ref_R := (matrix_to_rotation_translation ref_T).1
    let rotation_errors := T_target_base_list.map fun T =>
      calculate_rotation_error E ref_R (matrix_to_rotation_translation T).1
    let translation_errors := T_target_base_list.map fun T =>
      calculate_translation_error E mean_translation (matrix_to_rotation_translation T).2
    let individual_errors :=
      (translation_errors.zip rotation_errors).map fun p => p.1 + p.2
    Except.ok
      { mean_error := listMean individual_errors
        std_error := npStd E translation_errors
        max_error := listMax translation_errors
        min_error := listMin translation_errors
        individual_errors := individual_errors
        rotation_errors_deg := rotation_errors
        translation_errors_mm := translation_errors
        mean_rotation_error_deg := listMean rotation_errors
        mean_translation_error_mm := listMean translation_errors }

/-- The reprojection error the spec (§4.4) prescribes, per pair: the
squared Frobenius norm of the residual `A·X - X·B` (zero exactly when the
pair satisfies `AX = XB`). -/
def spec_pair_residual_sq {α : Type} [CommRing α] (X A B : M4 α) : α :=
  M4.frobSq (M4.sub (M4.mul A X) (M4.mul X B))

/-- **C10**: on empty pose lists the computation fails (the `[0]` access
raises); a total embedding returns an error value, never a zero report. -/
theorem C10_reprojection_error_empty_input {α : Type} [LinearOrderedField α]
    (E : NumEnv α) (X : M4 α) :
    calculate_reprojection_error E X [] [] = Except.error "list index out of range" :=
  rfl

/-- Pure translation by `a` along x, an exact rational rigid pose. -/
def qTrans (a : ℚ) : M4 ℚ := create_homogeneous_matrix M3.one ⟨a, 0, 0⟩

/-- Collaborator instantiation for the run in
`C1_code_is_centroid_heuristic_not_residual`: every relative rotation that
run feeds to scipy is the identity, whose rotation angle is 0; the square
roots the asserted fields force are √0 = 0 and √4 = 2; `pi` only ever
multiplies a zero angle, so any nonzero rational stands in. -/
def numEnvC1 : NumEnv ℚ :=
  { magnitude := fun M => if M = M3.one then 0 else 1
    pi := 355 / 113
    sqrt := fun q => if q = 0 then 0 else if q = 4 then 2 else 0 }

/-- **C1** fails on the code: with `X = I` and three identical pure
translations for robot and camera poses, every pair satisfies
`A·X = X·B` exactly — the spec's reprojection error (per-pair Frobenius
residual of `AX - XB`) is identically 0 — yet
`calculate_reprojection_error` reports `mean_error = 4/3 ≠ 0`: it
measures deviation of `A·X·B` from the first/mean combined pose (the
centroid heuristic §9 of the spec flags as a latent defect), not the
`AX - XB` residual its own docstring promises. -/
theorem C1_code_is_centroid_heuristic_not_residual :
    spec_pair_residual_sq M4.one (qTrans 0) (qTrans 0) = 0
    ∧ spec_pair_residual_sq M4.one (qTrans 1) (qTrans 1) = 0
    ∧ spec_pair_residual_sq M4.one (qTrans 2) (qTrans 2) = 0
    ∧ (calculate_reprojection_error numEnvC1 M4.one
        [qTrans 0, qTrans 1, qTrans 2]
        [qTrans 0, qTrans 1, qTrans 2]).map ErrReport.mean_error
      = Except.ok (4 / 3)
    ∧ (4 : ℚ) / 3 ≠ 0 := by
  refine ⟨?_, ?_, ?_, ?_, by norm_num⟩ <;>
    norm_num [spec_pair_residual_sq, qTrans, create_homogeneous_matrix, M3.one,
      M4.mul, M4.one, M4.sub, M4.frobSq, calculate_reprojection_error,
      matrix_to_rotation_translation, listMean, listMax, listMin, npStd,
      calculate_rotation_error, calculate_translation_error, numEnvC1,
      V3.sub, V3.normSq, M3.transpose, M3.mul, Except.map, M3.mk.injEq]

/-! ## `backend/utils/file_utils.py`: `parse_robot_poses_csv`

The parser is embedded at the `csv.DictReader` level: a header list and
the data rows as string lists.  Python's `float()` builtin is the
external collaborator `pyFloat` (`none` models the
`ValueError`/`TypeError` it raises on a non-numeric or missing value). -/

/-- A parsed pose record; the keys are fixed to
`pose_index, x, y, z, rx, ry, rz` — the normalized internal names. -/
structure PoseRec (α : Type) where
  pose_index : Nat
  x : α
  y : α
  z : α
  rx : α
  ry : α
  rz : α
  deriving DecidableEq, Repr

/-- The `HTTPException` reasons `parse_robot_poses_csv` raises. -/
inductive CsvError where
  | emptyFile
  | missingColumns
  | rowParse (idx : Nat)
  | noDataRows
  deriving DecidableEq, Repr

/-- `row.get(key)` on a `csv.DictReader` row: the value of the key's
column, `None` when the header lacks the key or the row is short. -/
def rowGet (fieldnames row : List String) (key : String) : Option String :=
  ((fieldnames.zip row).find? fun p => p.1 = key).map Prod.snd

/-- Python `a or b` on two `str | None` operands: `a` unless it is falsy
(`None` or the empty string). -/
def pyOr (a b : Option String) : Option String :=
  match a with
  | some s => if s = "" then b else some s
  | none => b

/-- `float(row.get(UPPER) or row.get(lower))`: `none` models the
`TypeError` (missing) or `ValueError` (unparsable) paths. -/
def readField {α : Type} (pyFloat : String → Option α)
    (fieldnames row : List String) (upperKey lowerKey : String) : Option α :=
  (pyOr (rowGet fieldnames row upperKey) (rowGet fieldnames row lowerKey)).bind pyFloat

/-- One row of the parsing loop: the six fields with their alias pairs
`(X,x) (Y,y) (Z,z) (A,rx) (B,ry) (C,rz)`; any failure raises the
row-parse error with the 1-based row index. -/
def parseRow {α : Type} (pyFloat : String → Option α)
    (fieldnames row : List String) (idx : Nat) : Except CsvError (PoseRec α) :=
  match readField pyFloat fieldnames row "X" "x",
        readField pyFloat fieldnames row "Y" "y",
        readField pyFloat fieldnames row "Z" "z",
        readField pyFloat fieldnames row "A" "rx",
        readField pyFloat fieldnames row "B" "ry",
        readField pyFloat fieldnames row "C" "rz" with
  | some vx, some vy, some vz, some vrx, some vry, some vrz =>
      Except.ok ⟨idx, vx, vy, vz, vrx, vry, vrz⟩
  | _, _, _, _, _, _ => Except.error (CsvError.rowParse idx)

/-- The `for idx, row in enumerate(reader, start=1)` loop. -/
def parseRows {α : Type} (pyFloat : String → Option α) (fieldnames : List String) :
    Nat → List (List String) → Except CsvError (List (PoseRec α))
  | _, [] => Except.ok []
  | idx, row :: rest =>
      match parseRow pyFloat fieldnames row idx with
      | Except.error e => Except.error e
      | Except.ok p =>
          match parseRows pyFloat fieldnames (idx + 1) rest with
          | Except.error e => Except.error e
          | Except.ok ps => Except.ok (p :: ps)

/-- `parse_robot_poses_csv(file_content)` after decoding, at the
`DictReader` level: header presence checks, the row loop, and the
no-data-rows check. -/
def parse_robot_poses_csv {α : Type} (pyFloat : String → Option α)
    (fieldnames : List String) (rows : List (List String)) :
    Except CsvError (List (PoseRec α)) :=
  if fieldnames.isEmpty then Except.error CsvError.emptyFile
  else
    let has_position := ["X", "x"].any fun h => fieldnames.contains h
    let has_rotation := ["A", "rx"].any fun h => fieldnames.contains h
    if !(has_position && has_rotation) then Except.error CsvError.missingColumns
    else
      match parseRows pyFloat fieldnames 1 rows with
      | Except.error e => Except.error e
      | Except.ok poses =>
          if poses.length = 0 then Except.error CsvError.noDataRows
          else Except.ok poses

/-- A six-column CSV data row. -/
structure CsvRow where
  c0 : String
  c1 : String
  c2 : String
  c3 : String
  c4 : String
  c5 : String
  deriving DecidableEq, Repr

/-- The row as the `DictReader` sees it. -/
def CsvRow.lst (r : CsvRow) : List String := [r.c0, r.c1, r.c2, r.c3, r.c4, r.c5]

/-- A row is well formed for `pyFloat` when every cell is nonempty and
parses. -/
def RowOk {α : Type} (pyFloat : String → Option α) (r : CsvRow) : Prop :=
  ∀ s ∈ r.lst, s ≠ "" ∧ (pyFloat s).isSome = true

/-- The records a well-formed parse must produce: 1-based indices, and the
six columns mapped positionally to `x, y, z, rx, ry, rz` — so the fourth
column (`A` under the uppercase header) becomes `rx`, the fifth (`B`)
`ry`, the sixth (`C`) `rz`. -/
def expectedRecs {α : Type} [Inhabited α] (pyFloat : String → Option α) :
    Nat → List CsvRow → List (PoseRec α)
  | _, [] => []
  | idx, r :: rest =>
      ⟨idx, (pyFloat r.c0).getD default, (pyFloat r.c1).getD default,
       (pyFloat r.c2).getD default, (pyFloat r.c3).getD default,
       (pyFloat r.c4).getD default, (pyFloat r.c5).getD default⟩
        :: expectedRecs pyFloat (idx + 1) rest

/-- One well-formed row parses identically under the uppercase
`X,Y,Z,A,B,C` header and the lowercase `x,y,z,rx,ry,rz` header, with the
fourth/fifth/sixth columns landing in `rx`/`ry`/`rz`. -/
theorem parseRow_both_headers {α : Type} [Inhabited α]
    (pyFloat : String → Option α) (r : CsvRow) (idx : Nat)
    (h : RowOk pyFloat r) :
    parseRow pyFloat ["X", "Y", "Z", "A", "B", "C"] r.lst idx
        = Except.ok ⟨idx, (pyFloat r.c0).getD default, (pyFloat r.c1).getD default,
            (pyFloat r.c2).getD default, (pyFloat r.c3).getD default,
            (pyFloat r.c4).getD default, (pyFloat r.c5).getD default⟩
    ∧ parseRow pyFloat ["x", "y", "z", "rx", "ry", "rz"] r.lst idx
        = Except.ok ⟨idx, (pyFloat r.c0).getD default, (pyFloat r.c1).getD default,
            (pyFloat r.c2).getD default, (pyFloat r.c3).getD default,
            (pyFloat r.c4).getD default, (pyFloat r.c5).getD default⟩ := by
  obtain ⟨e0, s0⟩ := h r.c0 (by simp [CsvRow.lst])
  obtain ⟨e1, s1⟩ := h r.c1 (by simp [CsvRow.lst])
  obtain ⟨e2, s2⟩ := h r.c2 (by simp [CsvRow.lst])
  obtain ⟨e3, s3⟩ := h r.c3 (by simp [CsvRow.lst])
  obtain ⟨e4, s4⟩ := h r.c4 (by simp [CsvRow.lst])
  obtain ⟨e5, s5⟩ := h r.c5 (by simp [CsvRow.lst])
  obtain ⟨v0, hv0⟩ := Option.isSome_iff_exists.mp s0
  obtain ⟨v1, hv1⟩ := Option.isSome_iff_exists.mp s1
  obtain ⟨v2, hv2⟩ := Option.isSome_iff_exists.mp s2
  obtain ⟨v3, hv3⟩ := Option.isSome_iff_exists.mp s3
  obtain ⟨v4, hv4⟩ := Option.isSome_iff_exists.mp s4
  obtain ⟨v5, hv5⟩ := Option.isSome_iff_exists.mp s5
  constructor <;>
    simp [parseRow, readField, rowGet, pyOr, CsvRow.lst, List.find?,
      e0, e1, e2, e3, e4, e5, hv0, hv1, hv2, hv3, hv4, hv5]

/-- The row loop on well-formed rows returns the expected records, for
both header sets, from any start index. -/
theorem parseRows_both_headers {α : Type} [Inhabited α]
    (pyFloat : String → Option α) (rows : List CsvRow)
    (h : ∀ r ∈ rows, RowOk pyFloat r) : ∀ idx : Nat,
    parseRows pyFloat ["X", "Y", "Z", "A", "B", "C"] idx (rows.map CsvRow.lst)
        = Except.ok (expectedRecs pyFloat idx rows)
    ∧ parseRows pyFloat ["x", "y", "z", "rx", "ry", "rz"] idx (rows.map CsvRow.lst)
        = Except.ok (expectedRecs pyFloat idx rows) := by
  induction rows with
  | nil => intro idx; exact ⟨rfl, rfl⟩
  | cons r rest ih =>
      intro idx
      have hr := parseRow_both_headers pyFloat r idx (h r (by simp))
      have hrest := ih (fun q hq => h q (by simp [hq])) (idx + 1)
      constructor <;>
        simp [parseRows, hr.1, hr.2, hrest.1, hrest.2, expectedRecs]

/-- **C8**: every well-formed robot-pose CSV parses under either header
set to the same list of records with keys normalized to
`x, y, z, rx, ry, rz`; under the uppercase header the `A` column becomes
`rx`, `B` becomes `ry` and `C` becomes `rz` (`expectedRecs` maps the
columns positionally), and the aliases do not survive into the output
type `PoseRec`. -/
theorem C8_csv_alias_normalization {α : Type} [Inhabited α]
    (pyFloat : String → Option α) (rows : List CsvRow)
    (hok : ∀ r ∈ rows, RowOk pyFloat r) (hne : rows ≠ []) :
    parse_robot_poses_csv pyFloat ["X", "Y", "Z", "A", "B", "C"] (rows.map CsvRow.lst)
        = Except.ok (expectedRecs pyFloat 1 rows)
    ∧ parse_robot_poses_csv pyFloat ["x", "y", "z", "rx", "ry", "rz"] (rows.map CsvRow.lst)
        = Except.ok (expectedRecs pyFloat 1 rows) := by
  have hrows := parseRows_both_headers pyFloat rows hok 1
  have hlen : expectedRecs pyFloat 1 rows ≠ [] := by
    cases rows with
    | nil => exact absurd rfl hne
    | cons r rest => simp [expectedRecs]
  constructor <;>
    · simp only [parse_robot_poses_csv, hrows.1, hrows.2]
      simp [hlen, List.length_eq_zero]

/-- Python `float()` restricted to the six cell literals the witness CSV
uses. -/
def pyFloatW : String → Option ℚ := fun s =>
  (([("1", (1 : ℚ)), ("2", 2), ("3", 3), ("4", 4), ("5", 5), ("6", 6)].find?
      fun p => p.1 = s)).map Prod.snd

/-- The witness CSV's single data row. -/
def wRow : CsvRow := ⟨"1", "2", "3", "4", "5", "6"⟩

/-- Witness for **C8**: the one-row CSV `1,2,3,4,5,6` parses identically
under both header sets, with the `A/B/C` values 4, 5, 6 landing in
`rx`, `ry`, `rz`. -/
theorem C8_csv_alias_normalization_witness :
    parse_robot_poses_csv pyFloatW ["X", "Y", "Z", "A", "B", "C"] [wRow.lst]
        = Except.ok [⟨1, 1, 2, 3, 4, 5, 6⟩]
    ∧ parse_robot_poses_csv pyFloatW ["x", "y", "z", "rx", "ry", "rz"] [wRow.lst]
        = Except.ok [⟨1, 1, 2, 3, 4, 5, 6⟩] := by
  have hok : ∀ r ∈ [wRow], RowOk pyFloatW r := by
    intro r hr
    simp only [List.mem_singleton] at hr
    subst hr
    intro s hs
    fin_cases hs <;> simp [pyFloatW, wRow, CsvRow.lst, List.find?]
  have h := C8_csv_alias_normalization pyFloatW [wRow] hok (by simp)
  have he : expectedRecs pyFloatW 1 [wRow] = [⟨1, 1, 2, 3, 4, 5, 6⟩] := by
    simp [expectedRecs, pyFloatW, wRow, List.find?]
  exact ⟨by simpa [he] using h.1, by simpa [he] using h.2⟩

/-! ## `backend/calibration/calibration_service.py`

`CalibrationService.process_calibration_run` sequences run lookup, image
processing (ChArUco detection per image, an external cv2 call), robot
pose loading, validation, solve, error metrics and persistence, the whole
body under one `try/except` that converts any raised exception into a
failure dictionary.  The database and the per-image detector outcomes are
the environment `RunEnv`; exceptions are `Except.error` values. -/

/-- The f-string each `validate_pose_pairs` message renders to. -/
def VMsg.render : VMsg → String
  | .countMismatch a b =>
      s!"Mismatch in number of poses: {a} robot poses vs {b} camera poses"
  | .insufficientPoses need got =>
      s!"Insufficient poses: need at least {need}, got {got}"
  | .robotNanInf i => s!"Robot pose {i} contains NaN or Inf values"
  | .camNanInf i => s!"Camera pose {i} contains NaN or Inf values"
  | .duplicateRobot i j => s!"Robot poses {i} and {j} are very similar or identical"
  | .fewPoses n => s!"Only {n} poses provided. Recommend 8-15 for robust calibration."

/-- A `RobotPose` database row: translation and Euler angles. -/
structure REuler (α : Type) where
  x : α
  y : α
  z : α
  rx : α
  ry : α
  rz : α
  deriving Repr

/-- What `ChArUcoDetector.estimate_pose` returns on a successful
detection. -/
structure DetectOk (α : Type) where
  transformation_matrix : M4 α
  rotation_matrix : M3 α
  tvec : V3 α
  reprojection_error : α
  corners_detected : Nat
  deriving Repr

/-- One `CalibrationImage` row as the processing loop observes it:
whether the file exists on disk, whether `cv2.imread` can read it, and
the detector outcome (`.error` = an exception raised inside the external
call; `.ok none` = board not detected). -/
structure ImageItem (α : Type) where
  on_disk : Bool
  readable : Bool
  pose_result : Except String (Option (DetectOk α))

/-- The orchestrator's environment: the database contents and the
external collaborators (scipy `from_euler`, `cv2.calibrateHandEye`, the
numeric primitives, the final commit, and the `except`-handler's own
database query/commit — which has no nested protection and can itself
raise, e.g. a `PendingRollbackError` after a failed in-`try` commit). -/
structure RunEnv (α : Type) where
  run_found : Bool
  detector_init : Except String Unit
  images : List (ImageItem α)
  robot_pose_rows : List (REuler α)
  from_euler : α → α → α → M3 α
  calibrateHandEye : Cv2HandEye α
  numenv : NumEnv α
  save_commit : Except String Unit
  handler_db : Except String Unit

/-- `pose_euler_to_matrix(x, y, z, rx, ry, rz, degrees=True)`: the scipy
Euler conversion (the collaborator `from_euler`) plus
`create_homogeneous_matrix`. -/
def pose_euler_to_matrix {α : Type} [CommRing α] (from_euler : α → α → α → M3 α)
    (x y z rx ry rz : α) : M4 α :=
  create_homogeneous_matrix (from_euler rx ry rz) ⟨x, y, z⟩

/-- `_load_robot_poses_as_matrices`: every row converted with
`degrees=True`. -/
def load_robot_poses_as_matrices {α : Type} [CommRing α]
    (from_euler : α → α → α → M3 α) (rows : List (REuler α)) : List (M4 α) :=
  rows.map fun p => pose_euler_to_matrix from_euler p.x p.y p.z p.rx p.ry p.rz

/-- The image loop of `_process_images_and_estimate_poses`: skip missing
or unreadable files, propagate detector exceptions, collect the
transformation matrices of successful detections in order and count
them. -/
def imagesLoop {α : Type} : List (ImageItem α) → Except String (List (M4 α) × Nat)
  | [] => Except.ok ([], 0)
  | img :: rest =>
      if !img.on_disk then imagesLoop rest
      else if !img.readable then imagesLoop rest
      else
        match img.pose_result with
        | Except.error e => Except.error e
        | Except.ok none => imagesLoop rest
        | Except.ok (some d) =>
            match imagesLoop rest with
            | Except.error e => Except.error e
            | Except.ok (ps, n) => Except.ok (d.transformation_matrix :: ps, n + 1)

/-- The dictionary `_process_images_and_estimate_poses` returns: either a
failure with its message or the camera poses with the detected/total
counts. -/
inductive StageResult (α : Type) where
  | fail (error_message : String)
  | ok (camera_poses : List (M4 α)) (detected_count total_count : Nat)

/-- `_process_images_and_estimate_poses`: zero images, zero detections
and fewer-than-3 detections are failure dictionaries; a raised exception
propagates to the caller's `try`. -/
def process_images_and_estimate_poses {α : Type} (images : List (ImageItem α)) :
    Except String (StageResult α) :=
  if images.length = 0 then Except.ok (.fail "No images found for calibration")
  else
    match imagesLoop images with
    | Except.error e => Except.error e
    | Except.ok (camera_poses, successful_count) =>
        if successful_count = 0 then
          Except.ok (.fail "No ChArUco boards detected in any image")
        else if successful_count < 3 then
          Except.ok (.fail s!"Only {successful_count} boards detected, need at least 3")
        else Except.ok (.ok camera_poses successful_count images.length)

/-- The dictionary `calculate_pose_diversity` returns; the `min_*` keys
are absent (`none`) on the short-input early return. -/
structure DivReport (α : Type) where
  mean_rotation_change_deg : α
  mean_translation_change_mm : α
  max_rotation_change_deg : α
  max_translation_change_mm : α
  min_rotation_change_deg : Option α
  min_translation_change_mm : Option α
  deriving Repr

/-- `calculate_pose_diversity(poses)` from `error_metrics.py`: rotation
and translation change between consecutive poses. -/
def calculate_pose_diversity {α : Type} [LinearOrderedField α] (E : NumEnv α)
    (poses : List (M4 α)) : DivReport α :=
  if poses.length < 2 then ⟨0, 0, 0, 0, none, none⟩
  else
    let pairs := poses.zip poses.tail
    let rotation_changes := pairs.map fun p =>
      calculate_rotation_error E (matrix_to_rotation_translation p.1).1
        (matrix_to_rotation_translation p.2).1
    let translation_changes := pairs.map fun p =>
      calculate_translation_error E (matrix_to_rotation_translation p.1).2
        (matrix_to_rotation_translation p.2).2
    ⟨listMean rotation_changes, listMean translation_changes,
     listMax rotation_changes, listMax translation_changes,
     some (listMin rotation_changes), some (listMin translation_changes)⟩

/-- The result dictionary of `process_calibration_run`; `Option` fields
model keys present only on one path. -/
structure ResultDict (α : Type) where
  success : Bool
  transformation_matrix : Option (M4 α) := none
  reprojection_error : Option α := none
  rotation_error_deg : Option α := none
  translation_error_mm : Option α := none
  poses_processed : Option Nat := none
  poses_valid : Option Nat := none
  method : Option String := none
  robot_pose_diversity : Option (DivReport α) := none
  error_message : Option String := none

/-- A failure dictionary `{'success': False, 'error_message': msg}`. -/
def failDict {α : Type} (msg : String) : ResultDict α :=
  { success := false, error_message := some msg }

/-- The `try` body of `process_calibration_run`: every early `return` is
an `.ok` failure dictionary; a raised exception is `.error`. -/
def process_calibration_run_body {α : Type} [LinearOrderedField α] [FloatLike α]
    (env : RunEnv α) (calibration_run_id : Nat) : Except String (ResultDict α) :=
  if !env.run_found then
    Except.ok (failDict s!"Calibration run {calibration_run_id} not found")
  else
    match env.detector_init with
    | Except.error e => Except.error e
    | Except.ok _ =>
      match process_images_and_estimate_poses env.images with
      | Except.error e => Except.error e
      | Except.ok (.fail msg) => Except.ok (failDict msg)
      | Except.ok (.ok camera_poses_matrices _ _) =>
        let robot_poses_matrices :=
          load_robot_poses_as_matrices env.from_euler env.robot_pose_rows
        if robot_poses_matrices.length = 0 then
          Except.ok (failDict "No robot poses found")
        else
          let validation := validate_pose_pairs robot_poses_matrices camera_poses_matrices 3
          if validation.valid = false then
            Except.ok (failDict ("Pose validation failed: "
              ++ String.intercalate "; " (validation.errors.map VMsg.render)))
          else
            match solve_hand_eye_tsai_lenz env.calibrateHandEye
                robot_poses_matrices camera_poses_matrices with
            | Except.error e => Except.error e
            | Except.ok calib_result =>
              match calculate_reprojection_error env.numenv calib_result.X
                  robot_poses_matrices camera_poses_matrices with
              | Except.error e => Except.error e
              | Except.ok error_metrics =>
                let robot_diversity :=
                  calculate_pose_diversity env.numenv robot_poses_matrices
                match env.save_commit with
                | Except.error e => Except.error e
                | Except.ok _ =>
                  Except.ok
                    { success := true
                      transformation_matrix := some calib_result.X
                      reprojection_error := some error_metrics.mean_error
                      rotation_error_deg := some error_metrics.mean_rotation_error_deg
                      translation_error_mm := some error_metrics.mean_translation_error_mm
                      poses_processed := some robot_poses_matrices.length
                      poses_valid := some camera_poses_matrices.length
                      method := some calib_result.method_name
                      robot_pose_diversity := some robot_diversity }

/-- The dictionary `process_calibration_run` returns *on the paths where
it does return one*: the `except Exception` handler converts a raised
exception into `{'success': False, 'error_message': str(e)}`.  The
handler also re-queries the run and commits the FAILED status with no
nested protection; that fallible part is modelled in
`process_calibration_run_outcome` below, which is the full behavior —
this definition is the returned dictionary under a successful handler. -/
def process_calibration_run {α : Type} [LinearOrderedField α] [FloatLike α]
    (env : RunEnv α) (calibration_run_id : Nat) : ResultDict α :=
  match process_calibration_run_body env calibration_run_id with
  | Except.ok d => d
  | Except.error e => failDict e

/-- The full behavior of `process_calibration_run`, handler included
(calibration_service.py lines 145-158): when the `try` body raises, the
handler runs `self.db.query(...).first()` and, if the run exists,
`self.db.commit()` — with no nested `try`, so an exception raised there
(e.g. `sqlalchemy.exc.PendingRollbackError` after a failed in-`try`
commit) propagates past the orchestrator's boundary; only when those
database operations succeed is the failure dictionary (with the
*original* exception's text) returned. -/
def process_calibration_run_outcome {α : Type} [LinearOrderedField α] [FloatLike α]
    (env : RunEnv α) (calibration_run_id : Nat) : Except String (ResultDict α) :=
  match process_calibration_run_body env calibration_run_id with
  | Except.ok d => Except.ok d
  | Except.error e =>
      match env.handler_db with
      | Except.error e2 => Except.error e2
      | Except.ok _ => Except.ok (failDict e)

/-- Every dictionary the `try` body returns is either a success or a
failure carrying a message. -/
theorem body_result_shape {α : Type} [LinearOrderedField α] [FloatLike α]
    (env : RunEnv α) (calibration_run_id : Nat) (d : ResultDict α)
    (h : process_calibration_run_body env calibration_run_id = Except.ok d) :
    d.success = true ∨ (d.success = false ∧ d.error_message.isSome = true) := by
  unfold process_calibration_run_body at h
  repeat' (first | (split at h) | (simp only [] at h))
  all_goals
    first
      | exact (Except.noConfusion h)
      | (injection h with h; subst h; simp [failDict])

/-- Whenever the orchestrator does return a dictionary, it is
structured: either a success, or a failure carrying a message. -/
theorem orchestrator_result_structured {α : Type} [LinearOrderedField α]
    [FloatLike α] (env : RunEnv α) (calibration_run_id : Nat) :
    (process_calibration_run env calibration_run_id).success = true
    ∨ ((process_calibration_run env calibration_run_id).success = false
        ∧ (process_calibration_run env calibration_run_id).error_message.isSome
            = true) := by
  unfold process_calibration_run
  cases h : process_calibration_run_body env calibration_run_id with
  | ok d => simpa [h] using body_result_shape env calibration_run_id d h
  | error e => right; simp [failDict]

/-- **C3 (amended)**: provided the `except`-handler's own database
query/commit does not raise, the orchestrator returns a structured
dictionary for every environment — run missing, zero images, zero
detections, validation failure, or an exception raised by any internal
stage: either `success = true`, or `success = false` with an error
message preserving the failure reason.  (As stated originally the claim
is false: when an internal stage raises *and* the handler's database
operations raise, the exception propagates — see
`C3_counterexample_handler_raises`.) -/
theorem C3_structured_unless_handler_raises {α : Type} [LinearOrderedField α]
    [FloatLike α] (env : RunEnv α) (calibration_run_id : Nat)
    (h : env.handler_db = Except.ok ()) :
    process_calibration_run_outcome env calibration_run_id
        = Except.ok (process_calibration_run env calibration_run_id)
    ∧ ((process_calibration_run env calibration_run_id).success = true
        ∨ ((process_calibration_run env calibration_run_id).success = false
            ∧ (process_calibration_run env calibration_run_id).error_message.isSome
                = true)) := by
  constructor
  · unfold process_calibration_run_outcome process_calibration_run
    cases hb : process_calibration_run_body env calibration_run_id <;> simp [h]
  · exact orchestrator_result_structured env calibration_run_id

/-- `_process_images_and_estimate_poses` only returns a success stage
dictionary when at least 3 boards were detected. -/
theorem process_images_ok_inv {α : Type} (images : List (ImageItem α))
    (cps : List (M4 α)) (n total : Nat)
    (h : process_images_and_estimate_poses images
        = Except.ok (StageResult.ok cps n total)) : 3 ≤ n := by
  unfold process_images_and_estimate_poses at h
  repeat' (split at h)
  all_goals
    first
      | exact (Except.noConfusion h)
      | (injection h with h; exact (StageResult.noConfusion h))
      | (injection h with h; injection h with e1 e2 e3; omega)

/-- **C5**: a run completes successfully only if at least 3 camera poses
were detected, robot poses exist, the validator passes and the solver
(and error computation) succeed; the success dictionary carries the
transform and the error report.  Contrapositively, zero or fewer than 3
detections always yield a failure result. -/
theorem C5_completed_requires_all_stages {α : Type} [LinearOrderedField α]
    [FloatLike α] (env : RunEnv α) (rid : Nat)
    (h : (process_calibration_run env rid).success = true) :
    ∃ camera_poses detected total calib_result error_metrics,
      process_images_and_estimate_poses env.images
          = Except.ok (StageResult.ok camera_poses detected total)
      ∧ 3 ≤ detected
      ∧ load_robot_poses_as_matrices env.from_euler env.robot_pose_rows ≠ []
      ∧ (validate_pose_pairs
            (load_robot_poses_as_matrices env.from_euler env.robot_pose_rows)
            camera_poses 3).valid = true
      ∧ solve_hand_eye_tsai_lenz env.calibrateHandEye
            (load_robot_poses_as_matrices env.from_euler env.robot_pose_rows)
            camera_poses = Except.ok calib_result
      ∧ calculate_reprojection_error env.numenv calib_result.X
            (load_robot_poses_as_matrices env.from_euler env.robot_pose_rows)
            camera_poses = Except.ok error_metrics
      ∧ (process_calibration_run env rid).transformation_matrix
          = some calib_result.X
      ∧ (process_calibration_run env rid).reprojection_error
          = some error_metrics.mean_error
      ∧ (process_calibration_run env rid).rotation_error_deg
          = some error_metrics.mean_rotation_error_deg
      ∧ (process_calibration_run env rid).translation_error_mm
          = some error_metrics.mean_translation_error_mm := by
  cases hb : process_calibration_run_body env rid with
  | error e =>
      have hp : process_calibration_run env rid = failDict e := by
        simp [process_calibration_run, hb]
      rw [hp] at h
      simp [failDict] at h
  | ok d0 =>
      have hp : process_calibration_run env rid = d0 := by
        simp [process_calibration_run, hb]
      rw [hp] at h ⊢
      unfold process_calibration_run_body at hb
      split at hb
      · injection hb with hb
        subst hb
        simp [failDict] at h
      · split at hb
        · exact (Except.noConfusion hb)
        · split at hb
          · exact (Except.noConfusion hb)
          · injection hb with hb
            subst hb
            simp [failDict] at h
          · rename_i camera_poses detected total hImages
            simp only [] at hb
            split at hb
            · injection hb with hb
              subst hb
              simp [failDict] at h
            · rename_i hRobot
              split at hb
              · injection hb with hb
                subst hb
                simp [failDict] at h
              · rename_i hValid
                split at hb
                · exact (Except.noConfusion hb)
                · rename_i calib hSolve
                  split at hb
                  · exact (Except.noConfusion hb)
                  · rename_i em hMetrics
                    try simp only [] at hb
                    split at hb
                    · exact (Except.noConfusion hb)
                    · injection hb with hb
                      subst hb
                      refine ⟨camera_poses, detected, total, calib, em,
                        hImages,
                        process_images_ok_inv env.images _ _ _ hImages,
                        ?_, ?_, hSolve, hMetrics, ?_, ?_, ?_, ?_⟩
                      · intro hnil
                        exact hRobot (by simp [hnil])
                      · simpa using hValid
                      · simp
                      · simp
                      · simp
                      · simp

/-- Collaborator pack for the witness run; the asserted property is
control flow, which none of the numeric collaborator values affect. -/
def numEnvW : NumEnv ℚ := { magnitude := fun _ => 0, pi := 1, sqrt := fun _ => 0 }

/-- A successful detection whose combined transform is the translation
`(k, 0, 0)`. -/
def detectW (k : ℚ) : DetectOk ℚ :=
  { transformation_matrix := qTrans k
    rotation_matrix := M3.one
    tvec := ⟨k, 0, 0⟩
    reprojection_error := 0
    corners_detected := 24 }

/-- A readable on-disk image whose detection succeeds. -/
def imgW (k : ℚ) : ImageItem ℚ :=
  { on_disk := true, readable := true, pose_result := Except.ok (some (detectW k)) }

/-- A fully healthy environment: three detected images, three robot
poses, all collaborators succeed. -/
def envW : RunEnv ℚ :=
  { run_found := true
    detector_init := Except.ok ()
    images := [imgW 0, imgW 1, imgW 2]
    robot_pose_rows := [⟨0, 0, 0, 0, 0, 0⟩, ⟨1, 0, 0, 0, 0, 0⟩, ⟨2, 0, 0, 0, 0, 0⟩]
    from_euler := fun _ _ _ => M3.one
    calibrateHandEye := fun _ _ _ _ => Except.ok (M3.one, ⟨0, 0, 0⟩)
    numenv := numEnvW
    save_commit := Except.ok ()
    handler_db := Except.ok () }

/-- Witness for **C5**: the healthy environment completes successfully,
so the theorem's conclusions hold of it. -/
theorem C5_completed_requires_all_stages_witness :
    (process_calibration_run envW 1).success = true
    ∧ ∃ camera_poses detected total calib_result error_metrics,
      process_images_and_estimate_poses envW.images
          = Except.ok (StageResult.ok camera_poses detected total)
      ∧ 3 ≤ detected
      ∧ load_robot_poses_as_matrices envW.from_euler envW.robot_pose_rows ≠ []
      ∧ (validate_pose_pairs
            (load_robot_poses_as_matrices envW.from_euler envW.robot_pose_rows)
            camera_poses 3).valid = true
      ∧ solve_hand_eye_tsai_lenz envW.calibrateHandEye
            (load_robot_poses_as_matrices envW.from_euler envW.robot_pose_rows)
            camera_poses = Except.ok calib_result
      ∧ calculate_reprojection_error envW.numenv calib_result.X
            (load_robot_poses_as_matrices envW.from_euler envW.robot_pose_rows)
            camera_poses = Except.ok error_metrics
      ∧ (process_calibration_run envW 1).transformation_matrix
          = some calib_result.X
      ∧ (process_calibration_run envW 1).reprojection_error
          = some error_metrics.mean_error
      ∧ (process_calibration_run envW 1).rotation_error_deg
          = some error_metrics.mean_rotation_error_deg
      ∧ (process_calibration_run envW 1).translation_error_mm
          = some error_metrics.mean_translation_error_mm := by
  have hs : (process_calibration_run envW 1).success = true := by
    norm_num [process_calibration_run, process_calibration_run_body,
      process_images_and_estimate_poses, imagesLoop, envW, imgW, detectW,
      load_robot_poses_as_matrices, pose_euler_to_matrix,
      create_homogeneous_matrix, validate_pose_pairs, nanInfErrors,
      dupWarnings, hasNanInf, allcloseM4, M4.entries, FloatLike.isnan,
      FloatLike.isinf, FloatLike.isclose, solve_hand_eye_tsai_lenz,
      solve_hand_eye_opencv, method_names, matrix_to_rotation_translation,
      calculate_reprojection_error, calculate_rotation_error,
      calculate_translation_error, listMean, listMax, listMin, npStd,
      numEnvW, qTrans, M3.one, M3.mul, M3.transpose, M4.mul, V3.sub,
      V3.normSq, calculate_pose_diversity, failDict]
  exact ⟨hs, C5_completed_requires_all_stages envW 1 hs⟩

/-- An environment in which an internal stage raises (the detector
initialization) and the `except`-handler's own database query/commit
also raises — the post-failure session state SQLAlchemy reports as a
`PendingRollbackError`. -/
def envC3 : RunEnv ℚ :=
  { run_found := true
    detector_init := Except.error "cv2.error: bad dictionary"
    images := []
    robot_pose_rows := []
    from_euler := fun _ _ _ => M3.one
    calibrateHandEye := fun _ _ _ _ => Except.ok (M3.one, ⟨0, 0, 0⟩)
    numenv := numEnvW
    save_commit := Except.ok ()
    handler_db := Except.error "sqlalchemy.exc.PendingRollbackError" }

/-- Counterexample to **C3** as stated: at this concrete input the
orchestrator does not return a structured result dictionary at all — the
exception raised by the handler's unprotected database operations
propagates past its boundary. -/
theorem C3_counterexample_handler_raises :
    process_calibration_run_outcome envC3 7
      = Except.error "sqlalchemy.exc.PendingRollbackError" := rfl

/-- Witness for the amended **C3** at the healthy environment: its
handler succeeds, so the outcome is the structured dictionary. -/
theorem C3_structured_unless_handler_raises_witness :
    envC3.handler_db ≠ Except.ok ()
    ∧ envW.handler_db = Except.ok ()
    ∧ process_calibration_run_outcome envW 1
        = Except.ok (process_calibration_run envW 1)
    ∧ ((process_calibration_run envW 1).success = true
        ∨ ((process_calibration_run envW 1).success = false
            ∧ (process_calibration_run envW 1).error_message.isSome = true)) := by
  have h := C3_structured_unless_handler_raises envW 1 rfl
  exact ⟨by simp [envC3], rfl, h.1, h.2⟩
